import Mathlib

/-!
# Verification of the KrakenSDR HTTP control agent

Shallow embedding of `kraken_api_agent.py` and `krakensdr_control.py`.

Conventions of the embedding:
* Python `float` values are modelled by `PyFloat`: exact rationals for finite
  values plus the special values `nan`, `inf`, `-inf`, with IEEE comparison
  semantics (every comparison involving `nan` is false).  Decimal-to-binary
  rounding is not modelled; decimal literals are read exactly into `ℚ`.
* Python `float(str)` / `int(str)` coercions are `pyFloat?` / `pyInt?`,
  returning `none` where CPython raises `ValueError` (digit-group underscores
  are not modelled; no input in this development uses them).
* Exceptions that escape a function are `Except.error`; handlers that catch
  exceptions turn them into the JSON error envelope, as the source does.
* The epoch's `datetime.fromtimestamp` conversion is modelled for CPython on
  64-bit Linux/glibc, the platform this agent targets (see `epochOutcome`).
  With the model's host timezone fixed to UTC, `convert_utc_to_local` is
  total for the years 1..9999 that reach it (a non-zero offset could push
  year 9999 out of range; that environment-dependent edge is out of model).
* The settings file plus the process-wide staged copy (`self.settings`) and a
  count of `save_config` calls form the state `KState`; disk I/O is assumed to
  succeed (no I/O-failure claims are in scope).
-/

deriving instance DecidableEq for Except

/-- Python float values: finite rationals plus IEEE special values. -/
inductive PyFloat
  | fin (q : ℚ)
  | nan
  | inf
  | ninf
deriving DecidableEq, Repr

namespace PyFloat

/-- IEEE `<`: any comparison involving NaN is false. -/
def lt : PyFloat → PyFloat → Bool
  | nan, _ => false
  | _, nan => false
  | fin a, fin b => a < b
  | fin _, inf => true
  | fin _, ninf => false
  | inf, _ => false
  | ninf, ninf => false
  | ninf, _ => true

/-- IEEE `≤`: any comparison involving NaN is false. -/
def le : PyFloat → PyFloat → Bool
  | nan, _ => false
  | _, nan => false
  | fin a, fin b => a ≤ b
  | fin _, inf => true
  | fin _, ninf => false
  | inf, inf => true
  | inf, _ => false
  | ninf, _ => true

/-- IEEE `==`: NaN is not equal to anything, including itself. -/
def beq : PyFloat → PyFloat → Bool
  | nan, _ => false
  | _, nan => false
  | fin a, fin b => a == b
  | inf, inf => true
  | ninf, ninf => true
  | _, _ => false

end PyFloat

/-! ## Python numeric string coercions (`float(str)`, `int(str)`) -/

/-- Leading `+`/`-` sign; returns (isNegative, rest). -/
def stripSign : List Char → Bool × List Char
  | '+' :: cs => (false, cs)
  | '-' :: cs => (true, cs)
  | cs => (false, cs)

/-- Split a leading run of ASCII digits from the rest. -/
def readDigits : List Char → List Char × List Char
  | [] => ([], [])
  | c :: cs =>
    if c.isDigit then
      let (ds, rest) := readDigits cs
      (c :: ds, rest)
    else ([], c :: cs)

/-- Numeric value of a digit string. -/
def digitsVal (ds : List Char) : ℕ :=
  ds.foldl (fun a c => a * 10 + (c.toNat - 48)) 0

/-- Ten to the `k`, as an integer (via `Nat.pow`, which the kernel evaluates). -/
def pow10 (k : ℕ) : ℤ := ((10 ^ k : ℕ) : ℤ)

/-- Python `str.strip()` whitespace for our purposes. -/
def isPySpace (c : Char) : Bool :=
  c = ' ' || c = '\t' || c = '\n' || c = '\r' || c = '\x0b' || c = '\x0c'

/-- Strip leading and trailing whitespace (Python's `str.strip()`). -/
def trimChars (cs : List Char) : List Char :=
  ((cs.dropWhile isPySpace).reverse.dropWhile isPySpace).reverse

/-- Mantissa of a decimal literal: `digits`, `digits.digits`, `digits.` or
`.digits`; at least one digit overall.  Returns the integer-part digits,
the fraction digits and the rest. -/
def parseMantissa (cs : List Char) : Option (List Char × List Char × List Char) :=
  let (ids, r1) := readDigits cs
  match r1 with
  | '.' :: r2 =>
    let (fds, r3) := readDigits r2
    if ids.isEmpty && fds.isEmpty then none
    else some (ids, fds, r3)
  | _ =>
    if ids.isEmpty then none
    else some (ids, [], r1)

/-- The exact rational value of a decimal literal `[-]ids.fds * 10^e`.
(Computed with `Rat.divInt` so the kernel can evaluate it.) -/
def decValue (neg : Bool) (ids fds : List Char) (e : ℤ) : ℚ :=
  let n : ℤ := (digitsVal (ids ++ fds) : ℤ)
  let n := if neg then -n else n
  let scale : ℤ := e - fds.length
  if 0 ≤ scale then Rat.divInt (n * pow10 scale.toNat) 1
  else Rat.divInt n (pow10 (-scale).toNat)

/-- Optional exponent part `e[sign]digits`; absent exponent is 0. -/
def parseExp (cs : List Char) : Option (ℤ × List Char) :=
  match cs with
  | 'e' :: r | 'E' :: r =>
    let (neg, r1) := stripSign r
    let (ds, r2) := readDigits r1
    if ds.isEmpty then none
    else some ((if neg then -(digitsVal ds : ℤ) else (digitsVal ds : ℤ)), r2)
  | _ => some (0, cs)

/-- Python `float(s)`: strips surrounding whitespace, handles sign, the
special spellings `inf`/`infinity`/`nan` (case-insensitive), and decimal
literals with optional fraction and exponent.  `none` models `ValueError`. -/
def pyFloat? (s : String) : Option PyFloat :=
  let cs := trimChars s.toList
  let (neg, r0) := stripSign cs
  let low := String.mk (r0.map Char.toLower)
  if low = "inf" || low = "infinity" then
    some (if neg then .ninf else .inf)
  else if low = "nan" then
    some .nan
  else
    match parseMantissa r0 with
    | none => none
    | some (ids, fds, r1) =>
      match parseExp r1 with
      | none => none
      | some (e, r2) =>
        if r2.isEmpty then some (.fin (decValue neg ids fds e))
        else none

/-- Python `int(s)`: strips surrounding whitespace, optional sign, digits
only (so `int("1.0")` fails).  `none` models `ValueError`. -/
def pyInt? (s : String) : Option ℤ :=
  let cs := trimChars s.toList
  let (neg, r0) := stripSign cs
  let (ds, r1) := readDigits r0
  if ds.isEmpty || !r1.isEmpty then none
  else some (if neg then -(digitsVal ds : ℤ) else (digitsVal ds : ℤ))

/-! ## Settings document (`settings.json`) -/

/-- A JSON value as stored in the settings document by this agent. -/
inductive JVal
  | num (f : PyFloat)
  | int (n : ℤ)
  | str (s : String)
  | bool (b : Bool)
  | strlist (l : List String)
deriving DecidableEq, Repr

/-- The settings document: insertion-ordered key/value mapping
(Python `dict` loaded from JSON). -/
abbrev Settings := List (String × JVal)

/-- Model of `settings[key] = value`: replace the first binding of `key`, else append
(Python dict assignment preserves insertion order). -/
def dictSet : Settings → String → JVal → Settings
  | [], k, v => [(k, v)]
  | (k', v') :: rest, k, v =>
    if k' = k then (k, v) :: rest else (k', v') :: dictSet rest k v

/-- Model of `settings.get(key)`. -/
def dictGet : Settings → String → Option JVal
  | [], _ => none
  | (k', v) :: rest, k => if k' = k then some v else dictGet rest k

/-! ## `KrakenSDRControl` (krakensdr_control.py) -/

/-- State of a `KrakenSDRControl` instance plus the settings file on disk.
`file` is the persisted document, `staged` is the in-process cached copy
`self.settings` (None ↦ `none`), and `writes` counts `save_config` calls. -/
structure KState where
  file : Settings
  staged : Option Settings
  writes : ℕ
deriving DecidableEq, Repr

namespace KrakenSDRControl

/-- Model of `self.valid_gains` (krakensdr_control.py line 19). -/
def valid_gains : List PyFloat :=
  [.fin 0, .fin (mkRat 9 10), .fin (mkRat 14 10), .fin (mkRat 27 10),
   .fin (mkRat 37 10), .fin (mkRat 77 10), .fin (mkRat 87 10),
   .fin (mkRat 125 10), .fin (mkRat 144 10), .fin (mkRat 157 10),
   .fin (mkRat 166 10), .fin (mkRat 197 10), .fin (mkRat 207 10),
   .fin (mkRat 229 10), .fin (mkRat 254 10), .fin (mkRat 280 10),
   .fin (mkRat 297 10), .fin (mkRat 328 10), .fin (mkRat 338 10),
   .fin (mkRat 364 10), .fin (mkRat 372 10), .fin (mkRat 386 10),
   .fin (mkRat 402 10), .fin (mkRat 421 10), .fin (mkRat 434 10),
   .fin (mkRat 439 10), .fin (mkRat 445 10), .fin (mkRat 480 10),
   .fin (mkRat 496 10)]

/-- Model of `update_value(key, new_value, save_file)`: work on the staged copy if one
exists, else on a fresh read of the file; write-and-clear-staging when
`save_file`, else stage for later. -/
def update_value (st : KState) (key : String) (new_value : JVal)
    (save_file : Bool := true) : KState :=
  let settings := match st.staged with
    | none => st.file
    | some s => s
  let settings := dictSet settings key new_value
  if save_file then
    { file := settings, staged := none, writes := st.writes + 1 }
  else
    { st with staged := some settings }

/-- Model of `optimize_short_bursts(new_state, save_file)`. -/
def optimize_short_bursts (st : KState) (new_state : JVal)
    (save_file : Bool := true) : KState :=
  update_value st "en_optimize_short_bursts" new_state save_file

/-- Model of `set_frequency(new_frequency_mhz, save_file)`. -/
def set_frequency (st : KState) (new_frequency_mhz : PyFloat)
    (save_file : Bool := true) : KState :=
  update_value st "center_freq" (.num new_frequency_mhz) save_file

/-- Model of `set_output_vfo(vfo_number, vfo, save_file)`: two required positional
arguments; note that it stores `vfo`, not `vfo_number`. -/
def set_output_vfo (st : KState) (vfo_number : ℤ) (vfo : JVal)
    (save_file : Bool := true) : KState :=
  let _ := vfo_number
  update_value st "output_vfo" vfo save_file

/-- Model of `set_vfo_frequency(vfo_number, frequency, save_file)`. -/
def set_vfo_frequency (st : KState) (vfo_number : ℤ) (frequency : PyFloat)
    (save_file : Bool := true) : KState :=
  update_value st ("vfo_freq_" ++ toString vfo_number) (.num frequency) save_file

/-- Model of `set_vfo_bandwidth(vfo_number, bw, save_file)`. -/
def set_vfo_bandwidth (st : KState) (vfo_number : ℤ) (bw : PyFloat)
    (save_file : Bool := true) : KState :=
  update_value st ("vfo_bw_" ++ toString vfo_number) (.num bw) save_file

/-- Model of `set_gain(gain, save_file)`: raises unless the gain is a member of the
fixed gain table (Python `in`, i.e. `==` against each entry). -/
def set_gain (st : KState) (gain : PyFloat) (save_file : Bool := true) :
    Except String KState :=
  if valid_gains.any (fun x => PyFloat.beq x gain) then
    .ok (update_value st "uniform_gain" (.num gain) save_file)
  else
    .error "ERROR: Invalid gain value.  Gain must be one of the valid gains"

end KrakenSDRControl

/-! ## DOA feed parser (`fetch_and_process_csv`, kraken_api_agent.py) -/

/-- A query-parameter value after `param_data_to_dict` (declared early so
`set_coordinates` can take the request's parameter dictionary): single
values are unwrapped strings, `"true"`/`"false"` (case-insensitive) become
booleans; multi-valued keys stay lists. -/
inductive PVal
  | str (s : String)
  | bool (b : Bool)
  | list (l : List String)
deriving DecidableEq, Repr

/-- Model of `param_data[key]` / `key in param_data.keys()`. -/
def plookup : List (String × PVal) → String → Option PVal
  | [], _ => none
  | (k', v) :: rest, k => if k' = k then some v else plookup rest k

/-- Python `float(x)` on a parameter value: bools coerce to 0/1, a
multi-value list raises `TypeError` (caught the same way as `ValueError`). -/
def pyFloatOfPVal : PVal → Option PyFloat
  | .str s => pyFloat? s
  | .bool b => some (.fin (if b then 1 else 0))
  | .list _ => none

/-- Python `int(x)` on a parameter value. -/
def pyIntOfPVal : PVal → Option ℤ
  | .str s => pyInt? s
  | .bool b => some (if b then 1 else 0)
  | .list _ => none

/-- The JSON value a parameter is stored as when written through unchanged
(`set_coordinates` does this for `location_source`/`gps_fixed_heading`). -/
def JVal.ofPVal : PVal → JVal
  | .str s => .str s
  | .bool b => .bool b
  | .list l => .strlist l

namespace KrakenSDRControl

/-- Model of `set_coordinates(coordinates)` (krakensdr_control.py lines 74-97): reads
the document fresh, coerces latitude/longitude to float, applies the
recognized optional keys (heading coerced to float, location_source and
gps_fixed_heading stored as-is, the two gps_min_speed fields coerced to
int), ignores unrecognized keys, and saves immediately.  `Except.error`
models the `KeyError`/`ValueError`/`TypeError` raised by lookups and
coercions; `save_config` does not touch the staged copy. -/
def set_coordinates (st : KState) (coordinates : List (String × PVal)) :
    Except String KState :=
  match plookup coordinates "latitude" with
  | none => .error "KeyError: latitude"
  | some latv =>
    match plookup coordinates "longitude" with
    | none => .error "KeyError: longitude"
    | some lonv =>
      match pyFloatOfPVal latv, pyFloatOfPVal lonv with
      | some lat, some lon =>
        let s1 := dictSet (dictSet st.file "latitude" (.num lat)) "longitude" (.num lon)
        let headingStep : Except String Settings :=
          match plookup coordinates "heading" with
          | none => .ok s1
          | some hv =>
            match pyFloatOfPVal hv with
            | none => .error "ValueError: could not convert to float"
            | some h => .ok (dictSet s1 "heading" (.num h))
        match headingStep with
        | .error e => .error e
        | .ok s2 =>
          let s3 := match plookup coordinates "location_source" with
            | none => s2
            | some v => dictSet s2 "location_source" (JVal.ofPVal v)
          let s4 := match plookup coordinates "gps_fixed_heading" with
            | none => s3
            | some v => dictSet s3 "gps_fixed_heading" (JVal.ofPVal v)
          let speedStep : Except String Settings :=
            match plookup coordinates "gps_min_speed" with
            | none => .ok s4
            | some v =>
              match pyIntOfPVal v with
              | none => .error "ValueError: invalid literal for int()"
              | some n => .ok (dictSet s4 "gps_min_speed" (.int n))
          match speedStep with
          | .error e => .error e
          | .ok s5 =>
            let durStep : Except String Settings :=
              match plookup coordinates "gps_min_speed_duration" with
              | none => .ok s5
              | some v =>
                match pyIntOfPVal v with
                | none => .error "ValueError: invalid literal for int()"
                | some n => .ok (dictSet s5 "gps_min_speed_duration" (.int n))
            match durStep with
            | .error e => .error e
            | .ok s6 => .ok { st with file := s6, writes := st.writes + 1 }
      | _, _ => .error "ValueError: could not convert to float"

end KrakenSDRControl

/-- Civil date (year, month, day) from days since 1970-01-01
(standard era-based algorithm, matching what the Python `datetime`
library computes for a UTC instant). -/
def civilFromDays (z0 : ℤ) : ℤ × ℤ × ℤ :=
  let z := z0 + 719468
  let era := Int.fdiv z 146097
  let doe := z - era * 146097
  let yoe := (doe - doe / 1460 + doe / 36524 - doe / 146096) / 365
  let y := yoe + era * 400
  let doy := doe - (365 * yoe + yoe / 4 - yoe / 100)
  let mp := (5 * doy + 2) / 153
  let d := doy - (153 * mp + 2) / 5 + 1
  let m := mp + (if mp < 10 then 3 else -9)
  (y + (if m ≤ 2 then 1 else 0), m, d)

/-- Two-digit zero padding for date/time components. -/
def pad2 (n : ℤ) : String :=
  if n < 10 then "0" ++ toString n else toString n

/-- Model of `datetime.fromtimestamp(ms/1000, tz=utc).strftime('%Y-%m-%d %H:%M:%S')`:
format the UTC instant `ms` milliseconds after the epoch. -/
def utc_strftime (ms : ℤ) : String :=
  let s := Int.fdiv ms 1000
  let days := Int.fdiv s 86400
  let secOfDay := s - days * 86400
  let (y, m, d) := civilFromDays days
  toString y ++ "-" ++ pad2 m ++ "-" ++ pad2 d ++ " " ++
    pad2 (secOfDay / 3600) ++ ":" ++ pad2 (secOfDay % 3600 / 60) ++ ":" ++
    pad2 (secOfDay % 60)

/-- Model of `convert_utc_to_local(...).strftime('%Y-%m-%d %H:%M:%S %Z')`.  The host
local timezone is an environment input (`tzlocal.get_localzone()`); the
embedding fixes it to UTC.  No claim in scope observes this string. -/
def local_strftime (ms : ℤ) : String :=
  utc_strftime ms ++ " UTC"

/-- The 13 positional base field names (kraken_api_agent.py lines 89-103). -/
def base_fields : List String :=
  ["Epoch Time", "Max DOA Angle (Degrees)", "Confidence Value",
   "RSSI Power (dB)", "Channel Frequency (Hz)", "Antenna Arrangement",
   "Latency (ms)", "Station ID", "Latitude", "Longitude", "GPS Heading",
   "Compass Heading", "Main Heading Sensor Used"]

/-- Model of `base_data = {fields[i]: row[i] for i in range(len(base_fields))}`. -/
def base_data (row : List String) : List (String × String) :=
  (List.range 13).map fun i => (base_fields.getD i "", row.getD i "")

/-- Python `dict.get(key, default)` over a small association list. -/
def dictGetD : List (String × String) → String → String → String
  | [], _, dflt => dflt
  | (k', v) :: rest, k, dflt => if k' = k then v else dictGetD rest k dflt

/-- One parsed DOA measurement record (one CSV row). -/
structure DOARecord where
  epochTime : ℤ
  utc_timestamp : String
  local_timestamp : String
  maxDoaAngle : PyFloat
  confidence : PyFloat
  rssiPower : PyFloat
  channelFrequency : PyFloat
  antennaArrangement : String
  latency : PyFloat
  stationId : String
  latitude : PyFloat
  longitude : PyFloat
  gpsHeading : PyFloat
  compassHeading : PyFloat
  mainHeadingSensorUsed : String
  reservedFields : List String
  doaOutput : List (String × PyFloat)
deriving DecidableEq, Repr

/-- The numeric base-field coercions guarded by the row's
`try`/`except ValueError` block (lines 130-148). -/
structure BaseVals where
  epochTime : ℤ
  maxDoaAngle : PyFloat
  confidence : PyFloat
  rssiPower : PyFloat
  channelFrequency : PyFloat
  latency : PyFloat
  latitude : PyFloat
  longitude : PyFloat
  gpsHeading : PyFloat
  compassHeading : PyFloat
deriving DecidableEq, Repr

/-- Outcome of the epoch-time processing at the head of the row's `try`
block (lines 131-133): `int(...)`, then `float(...)` of the resulting int,
then `datetime.fromtimestamp(.../1000, tz=utc)`. -/
inductive EpochOutcome
  | ok (ms : ℤ)
  | valueError
  | uncaught (msg : String)
deriving DecidableEq, Repr

/-- Model of lines 131-133 on the platform this agent targets (CPython on
64-bit Linux/glibc).  A non-integer string makes `int()` raise `ValueError`
(caught by the row's `except ValueError` → row skipped).  An integer of
magnitude at least `2^1024` makes `float()` raise `OverflowError`
(uncaught → the whole fetch aborts).  Otherwise
`datetime.fromtimestamp(ms/1000, tz=utc)` computes the UTC calendar date:
a year inside `datetime`'s range 1..9999 succeeds; a year outside it raises
`ValueError` in the datetime constructor (caught → row skipped) — unless
`tm_year = year - 1900` already overflows the C `int` used by
`gmtime`/`time_t` conversion, which fails first with `OSError` /
`OverflowError` (uncaught → the fetch aborts).  The exact glibc overflow
boundary is taken at the `tm_year` 32-bit limit; rounding of
`float(ms)/1000` (exact below `2^53` ms, so exact at the year-9999
boundary) is not modelled at the astronomically large boundary. -/
def epochOutcome (s : String) : EpochOutcome :=
  match pyInt? s with
  | none => .valueError
  | some n =>
    if 2 ^ 1024 ≤ n.natAbs then
      .uncaught "OverflowError: int too large to convert to float"
    else
      let y := (civilFromDays (Int.fdiv (Int.fdiv n 1000) 86400)).1
      if 1 ≤ y ∧ y ≤ 9999 then .ok n
      else if -2147483648 ≤ y - 1900 ∧ y - 1900 ≤ 2147483647 then .valueError
      else .uncaught "OSError: timestamp out of range for platform"

/-- Outcome of the whole guarded `try` block of a row. -/
inductive BaseParse
  | ok (bv : BaseVals)
  | valueError
  | uncaught (msg : String)
deriving DecidableEq, Repr

/-- The guarded conversions of the row's `try` block (lines 130-148): the
epoch handling runs first (see `epochOutcome`), then the nine `float()`
field coercions, whose `ValueError`s the `except ValueError` catches
(`valueError` → row skipped); `uncaught` is an exception the except clause
does not catch, aborting the whole fetch.  Compass Heading is looked up
with default `"NaN"` exactly as in the source (`base_data.get(...)`). -/
def parseBase (row : List String) : BaseParse :=
  let bd := base_data row
  match epochOutcome (dictGetD bd "Epoch Time" "") with
  | .uncaught m => .uncaught m
  | .valueError => .valueError
  | .ok ep =>
    match pyFloat? (dictGetD bd "Max DOA Angle (Degrees)" ""),
          pyFloat? (dictGetD bd "Confidence Value" ""),
          pyFloat? (dictGetD bd "RSSI Power (dB)" ""),
          pyFloat? (dictGetD bd "Channel Frequency (Hz)" ""),
          pyFloat? (dictGetD bd "Latency (ms)" ""),
          pyFloat? (dictGetD bd "Latitude" ""),
          pyFloat? (dictGetD bd "Longitude" ""),
          pyFloat? (dictGetD bd "GPS Heading" ""),
          pyFloat? (dictGetD bd "Compass Heading" "NaN") with
    | some ang, some conf, some rssi, some cf, some lat_ms,
      some la, some lo, some gh, some ch =>
        .ok ⟨ep, ang, conf, rssi, cf, lat_ms, la, lo, gh, ch⟩
    | _, _, _, _, _, _, _, _, _ => .valueError

/-- Model of `{str(degree): float(row[17 + degree]) for degree in range(360)}` —
note this comprehension sits OUTSIDE the row's `try` block in the source,
so a failed coercion here is an uncaught `ValueError`. -/
def doaPowers (row : List String) : Option (List (String × PyFloat)) :=
  (List.range 360).mapM fun degree =>
    (pyFloat? (row.getD (13 + 4 + degree) "")).map fun q => (toString degree, q)

/-- Outcome of the loop body for one CSV row. -/
inductive RowResult
  | skipped
  | record (r : DOARecord)
  | raised (msg : String)
deriving DecidableEq, Repr

/-- The loop body of `fetch_and_process_csv` for one row: drop short rows;
skip rows whose guarded conversions raise a caught `ValueError`; propagate
an exception the `try` block does not catch (epoch overflow / out-of-C-range
timestamp) or that is raised outside it (a bad DOA power value); else build
the record. -/
def processRow (row : List String) : RowResult :=
  if row.length < 377 then .skipped
  else
    match parseBase row with
    | .uncaught m => .raised m
    | .valueError => .skipped
    | .ok bv =>
      match doaPowers row with
      | none => .raised "could not convert string to float"
      | some doa =>
        .record
          { epochTime := bv.epochTime
            utc_timestamp := utc_strftime bv.epochTime ++ "Z"
            local_timestamp := local_strftime bv.epochTime
            maxDoaAngle := bv.maxDoaAngle
            confidence := bv.confidence
            rssiPower := bv.rssiPower
            channelFrequency := bv.channelFrequency
            antennaArrangement := dictGetD (base_data row) "Antenna Arrangement" ""
            latency := bv.latency
            stationId := dictGetD (base_data row) "Station ID" ""
            latitude := bv.latitude
            longitude := bv.longitude
            gpsHeading := bv.gpsHeading
            compassHeading := bv.compassHeading
            mainHeadingSensorUsed := dictGetD (base_data row) "Main Heading Sensor Used" ""
            reservedFields := (row.drop 13).take 4
            doaOutput := doa }

/-- The `for` loop over csv rows, accumulating accepted records in order. -/
def processRows : List (List String) → List DOARecord →
    Except String (List DOARecord)
  | [], acc => .ok acc
  | row :: rest, acc =>
    match processRow row with
    | .skipped => processRows rest acc
    | .record r => processRows rest (acc ++ [r])
    | .raised msg => .error msg

/-- What the HTTP fetch plus csv decode of `http://host:8081/DOA_value.html`
produced: a decoded list of rows, or one of the two caught error families. -/
inductive FetchResult
  | body (rows : List (List String))
  | requestError (msg : String)
  | csvError (msg : String)
deriving DecidableEq, Repr

/-- Model of `fetch_and_process_csv(server_name)` as a function of the fetch outcome.
`requests.exceptions.RequestException` (network errors and
`raise_for_status`) and `csv.Error` are caught and give `[]`; any other
exception (our `Except.error`) propagates to the caller. -/
def fetch_and_process_csv (fr : FetchResult) : Except String (List DOARecord) :=
  match fr with
  | .body rows => processRows rows []
  | .requestError _ => .ok []
  | .csvError _ => .ok []

/-! ## Allow-list construction (`buildAllowedIPs`) and startup -/

/-- Count of leading ASCII digits. -/
def countDigits : List Char → ℕ
  | c :: cs => if c.isDigit then 1 + countDigits cs else 0
  | [] => 0

/-- Match `[0-9]{1,3}\.` at the head.  Because digits and `.` are disjoint,
the regex's greedy octet length is forced: it is the number of leading
digits, which must be 1-3 and be followed by `.`. -/
def octetDot (cs : List Char) : Option (List Char) :=
  let d := countDigits cs
  if 1 ≤ d ∧ d ≤ 3 then
    match cs.drop d with
    | '.' :: rest => some rest
    | _ => none
  else none

/-- Match the dotted-quad pattern
`([0-9]{1,3}\.[0-9]{1,3}\.[0-9]{1,3}\.[0-9]{1,3})` at the head of `cs`,
returning the matched text. -/
def matchIPAt (cs : List Char) : Option String :=
  (octetDot cs).bind fun r1 =>
    (octetDot r1).bind fun r2 =>
      (octetDot r2).bind fun r3 =>
        let d := countDigits r3
        if 1 ≤ d then
          some (String.mk (cs.take (cs.length - r3.length + min d 3)))
        else none

/-- Model of `ippattern.search(s)`: leftmost match of the dotted-quad pattern. -/
def ipSearch : List Char → Option String
  | [] => none
  | c :: cs =>
    match matchIPAt (c :: cs) with
    | some s => some s
    | none => ipSearch cs

/-- Model of `c in s` on characters. -/
def containsChar (cs : List Char) (c : Char) : Bool := cs.any (· = c)

/-- Model of `s.replace(c, '')`. -/
def removeChar (cs : List Char) (c : Char) : List Char :=
  cs.filter fun x => !(x = c)

/-- Model of `s.split(c)`: split on every occurrence of `c`, keeping empty pieces
(so `"".split(c) = [""]` and `",".split(',') = ["", ""]`). -/
def splitOnChar : List Char → Char → List (List Char)
  | [], _ => [[]]
  | x :: xs, c =>
    let r := splitOnChar xs c
    if x = c then [] :: r
    else
      match r with
      | [] => [[x]]
      | y :: ys => (x :: y) :: ys

/-- What `buildAllowedIPs` did: normal return True with the list it built,
return False (single malformed entry; the list stays empty), or `exit(3)`
(malformed entry in a comma-separated list). -/
inductive BuildResult
  | ok (ips : List String)
  | failed (ips : List String)
  | exited (code : ℕ)
deriving DecidableEq, Repr

/-- The loop over the comma-separated entries of a multi-entry list:
a non-matching entry prints an error and calls `exit(3)`. -/
def buildAllowedIPsList : List (List Char) → List String → BuildResult
  | [], acc => .ok acc
  | s :: rest, acc =>
    let ipStr := removeChar s ' '
    match ipSearch ipStr with
    | none => .exited 3
    | some ip =>
      buildAllowedIPsList rest (if ip.length > 0 then acc ++ [ip] else acc)

/-- Model of `buildAllowedIPs(allowedIPstr)` (kraken_api_agent.py lines 217-249). -/
def buildAllowedIPs (allowedIPstr : String) : BuildResult :=
  let cs := allowedIPstr.toList
  if cs.length > 0 then
    if containsChar cs ',' then
      buildAllowedIPsList (splitOnChar cs ',') []
    else
      match ipSearch (removeChar cs ' ') with
      | none => .failed []
      | some ip => .ok (if ip.length > 0 then [ip] else [])
  else .ok []

/-- What the process does after processing `--allowedips`. -/
inductive StartupOutcome
  | serve (allowedIPs : List String)
  | exit (code : ℕ)
deriving DecidableEq, Repr

/-- The `__main__` use of the allow-list (line 639): the boolean returned by
`buildAllowedIPs` is discarded, so a `False` result still falls through to
starting the HTTP server with whatever `allowedIPs` holds. -/
def mainStartup (allowedipsArg : String) : StartupOutcome :=
  match buildAllowedIPs allowedipsArg with
  | .exited c => .exit c
  | .ok ips => .serve ips
  | .failed ips => .serve ips

/-! ## Request router (`AgentRequestHandler.do_GET`) -/

/-- Model of `param_data_to_dict(req_query)` applied to one parsed key's values. -/
def convertParamValue : List String → PVal
  | [v] =>
    if v.toUpper = "TRUE" then .bool true
    else if v.toUpper = "FALSE" then .bool false
    else .str v
  | vs => .list vs

/-- Model of `param_data_to_dict` over the output of `parse_qs`. -/
def param_data_to_dict (q : List (String × List String)) :
    List (String × PVal) :=
  q.map fun p => (p.1, convertParamValue p.2)

/-- The `{errcode, errmsg}` JSON envelope. -/
structure Response where
  errcode : ℤ
  errmsg : String
deriving DecidableEq, Repr

/-- Model of `build_base_dict()`. -/
def okResp : Response := ⟨0, ""⟩

/-- Model of `return_error_json(s, err_code, err_msg)`. -/
def errResp (c : ℤ) (m : String) : Response := ⟨c, m⟩

open KrakenSDRControl in
/-- The `/api/krakensdr/set_frequency` branch (lines 397-424). -/
def handle_set_frequency (param_data : List (String × PVal)) (st : KState) :
    Response × KState :=
  match plookup param_data "freq" with
  | none =>
    (errResp 1 "Correct key not specified in request.  Expecting freq=<value>", st)
  | some freqv =>
    match pyFloatOfPVal freqv with
    | none => (errResp 3 "ERROR setting value: could not convert to float", st)
    | some new_freq =>
      if PyFloat.lt new_freq (.fin 24) || PyFloat.lt (.fin 1766) new_freq then
        (errResp 1 "Frequency range error.  Value should be in MHz and range from 24.0 - 1766.0", st)
      else
        match plookup param_data "gain" with
        | none => (okResp, set_frequency st new_freq true)
        | some gainv =>
          match pyFloatOfPVal gainv with
          | none => (errResp 3 "ERROR setting value: could not convert to float", st)
          | some gain =>
            let st1 := set_frequency st new_freq false
            match set_gain st1 gain true with
            | .ok st2 => (okResp, st2)
            | .error e => (errResp 3 ("ERROR setting value: " ++ e), st1)

/-- The `/api/krakensdr/get_doa` response: `doa_info` is absent on an error
envelope (`none`), JSON `null` (`some none`), or a record (`some (some r)`). -/
structure DoaResponse where
  errcode : ℤ
  errmsg : String
  doa_info : Option (Option DOARecord)
deriving DecidableEq, Repr

/-- The `/api/krakensdr/get_doa` branch (lines 425-438).  The fetch result
is a list, never Python `None`, so the `is not None` test always takes the
indexing branch; `doa_info[0]` on an empty list raises `IndexError`, which
only the outer catch-all sees (errcode 5). -/
def handle_get_doa (fr : FetchResult) : DoaResponse :=
  match fetch_and_process_csv fr with
  | .error e => ⟨1, "ERROR getting config: " ++ e, none⟩
  | .ok doa_info =>
    match doa_info with
    | [] => ⟨5, "Unhandled GET exception: list index out of range", none⟩
    | r :: _ => ⟨0, "", some (some r)⟩

/-- The `/api/krakensdr/set_output_vfo` branch (lines 489-503).  The call
`krakensdr.set_output_vfo(index)` supplies one argument to a method that
requires two (`vfo_number`, `vfo`), so it raises `TypeError`, caught by the
branch's `except` as errcode 3. -/
def handle_set_output_vfo (param_data : List (String × PVal)) (st : KState) :
    Response × KState :=
  match plookup param_data "vfo_index" with
  | none =>
    (errResp 1 "Correct key not specified in request.  Expecting vfo_index=<index>", st)
  | some v =>
    match pyIntOfPVal v with
    | none => (errResp 3 "ERROR setting value: invalid literal for int()", st)
    | some _index =>
      (errResp 3 "ERROR setting value: set_output_vfo() missing 1 required positional argument: 'vfo'", st)

/-- The guard `bw == 0 or bw > 2.4e6` of the `set_vfo_bandwidth` branch
(line 558); note it does not reject negative bandwidths. -/
def vfo_bw_out_of_range (bw : PyFloat) : Bool :=
  PyFloat.beq bw (.fin 0) || PyFloat.lt (.fin 2400000) bw

/-- The `/api/krakensdr/set_vfo_bandwidth` branch (lines 542-566).  The call
`krakensdr.set_vfo_bandwidth(index, freq)` references `freq`, which is never
assigned on this code path, so it raises `NameError`, caught as errcode 3. -/
def handle_set_vfo_bandwidth (param_data : List (String × PVal)) (st : KState) :
    Response × KState :=
  match plookup param_data "vfo_index", plookup param_data "vfo_bw" with
  | none, _ =>
    (errResp 1 "Correct key not specified in request.  Expecting vfo_index=<index>", st)
  | some _, none =>
    (errResp 1 "Correct key not specified in request.  Expecting vfo_bw=<value in Hz>", st)
  | some iv, some bwv =>
      match pyIntOfPVal iv with
      | none => (errResp 3 "ERROR setting value: invalid literal for int()", st)
      | some _index =>
        match pyFloatOfPVal bwv with
        | none => (errResp 3 "ERROR setting value: could not convert to float", st)
        | some bw =>
          if vfo_bw_out_of_range bw then
            (errResp 1 "Bandwidth error.  Value should be in Hz and not exceed RTLSDR bandwidth", st)
          else
            (errResp 3 "ERROR setting value: name 'freq' is not defined", st)

/-- The `/api/krakensdr/set_coordinates` branch (lines 567-579).  The call
`krakensdr.set_coordinates(index, param_data)` evaluates the local name
`index`, which is never assigned on this code path, so it raises
`NameError`, caught as errcode 3. -/
def handle_set_coordinates (param_data : List (String × PVal)) (st : KState) :
    Response × KState :=
  if (plookup param_data "latitude").isNone || (plookup param_data "longitude").isNone then
    (errResp 1 "Correct key not specified in request.  latitude and longitude", st)
  else
    (errResp 3 "ERROR setting value: name 'index' is not defined", st)

/-! ## Concrete test data -/

/-- A well-formed 377-column CSV row: 13 base fields, 4 reserved fields,
360 DOA power values. -/
def sampleRow : List String :=
  ["1000", "45.0", "0.9", "-50.0", "100000000.0", "UCA", "10.0", "station1",
   "40.0", "-75.0", "90.0", "180.0", "GPS"]
  ++ ["r14", "r15", "r16", "r17"] ++ List.replicate 360 "1.0"

/-- The record `sampleRow` parses to. -/
def sampleRec : DOARecord :=
  { epochTime := 1000
    utc_timestamp := "1970-01-01 00:00:01Z"
    local_timestamp := "1970-01-01 00:00:01 UTC"
    maxDoaAngle := .fin 45
    confidence := .fin (mkRat 9 10)
    rssiPower := .fin (-50)
    channelFrequency := .fin 100000000
    antennaArrangement := "UCA"
    latency := .fin 10
    stationId := "station1"
    latitude := .fin 40
    longitude := .fin (-75)
    gpsHeading := .fin 90
    compassHeading := .fin 180
    mainHeadingSensorUsed := "GPS"
    reservedFields := ["r14", "r15", "r16", "r17"]
    doaOutput := (List.range 360).map fun d => (toString d, PyFloat.fin 1) }

/-- The guarded base conversions of `sampleRow`. -/
def sampleBase : BaseVals :=
  ⟨1000, .fin 45, .fin (mkRat 9 10), .fin (-50), .fin 100000000, .fin 10,
   .fin 40, .fin (-75), .fin 90, .fin 180⟩

/-- Model of `sampleRow` with a malformed epoch field: its guarded base conversion
raises `ValueError`, so the row is skipped. -/
def rowBadEpoch : List String := "notanumber" :: sampleRow.drop 1

/-- Model of `sampleRow` with epoch 253402300800000 ms, i.e. UTC instant
10000-01-01T00:00:00: `int()` and `float()` succeed, but the datetime
constructor raises `ValueError` ("year 10000 is out of range"), which the
row's `except ValueError` catches, so the source skips the row. -/
def rowEpochYear10000 : List String := "253402300800000" :: sampleRow.drop 1

/-- Model of `sampleRow` with a 310-digit epoch (at least `2^1024`):
`float()` of the parsed int raises `OverflowError`, which nothing in
`fetch_and_process_csv` catches, so the whole fetch aborts. -/
def rowEpochOverflow : List String :=
  String.mk ('1' :: List.replicate 309 '0') :: sampleRow.drop 1

/-- Model of `sampleRow` with a malformed first DOA power value: the coercion sits
outside the row's `try` block, so the `ValueError` is uncaught. -/
def rowBadDoa : List String :=
  sampleRow.take 17 ++ ("bad" :: List.replicate 359 "1.0")

/-- Model of `sampleRow` with the Compass Heading position (index 11) removed:
a 376-column row. -/
def rowMissingCompass : List String :=
  sampleRow.take 11 ++ sampleRow.drop 12

/-! ## Dictionary helper lemmas -/

theorem dictGet_dictSet_same (d : Settings) (k : String) (v : JVal) :
    dictGet (dictSet d k v) k = some v := by
  induction d with
  | nil => simp [dictSet, dictGet]
  | cons p rest ih =>
    obtain ⟨k', v'⟩ := p
    by_cases h : k' = k
    · simp [dictSet, dictGet, h]
    · simp [dictSet, dictGet, h, ih]

theorem dictGet_dictSet_ne (d : Settings) (k k' : String) (v : JVal)
    (h : k' ≠ k) : dictGet (dictSet d k v) k' = dictGet d k' := by
  induction d with
  | nil => simp [dictSet, dictGet, h, Ne.symm h]
  | cons p rest ih =>
    obtain ⟨k'', v''⟩ := p
    by_cases h2 : k'' = k
    · subst h2
      simp [dictSet, dictGet, Ne.symm h, h]
    · by_cases h3 : k'' = k'
      · simp [dictSet, dictGet, h2, h3, h]
      · simp [dictSet, dictGet, h2, h3, ih]

/-! ## Claim theorems -/

/-- C1: the claim says `get_doa` answers `{errcode:0, doa_info:null}` when
the fetched feed yields no records, and the first record otherwise, never an
error envelope.  The code instead indexes `doa_info[0]` whenever the fetch
result is not `None` — and `fetch_and_process_csv` returns a (possibly
empty) list, never `None` — so an empty feed raises `IndexError`, which the
outer catch-all turns into the errcode-5 error envelope.  This theorem
evaluates the handler at the failing inputs (empty body; network error) and
at a one-record feed (where the claim's first-record half does hold). -/
theorem get_doa_empty_feed_yields_errcode_5 :
    handle_get_doa (.body []) =
      ⟨5, "Unhandled GET exception: list index out of range", none⟩ ∧
    handle_get_doa (.requestError "connection refused") =
      ⟨5, "Unhandled GET exception: list index out of range", none⟩ ∧
    handle_get_doa (.body [sampleRow]) = ⟨0, "", some (some sampleRec)⟩ := by
  refine ⟨rfl, rfl, ?_⟩
  set_option maxRecDepth 100000 in decide

/-- C2: the claim says `set_coordinates` commits the coordinate fields and
answers errcode 0.  The handler instead calls
`krakensdr.set_coordinates(index, param_data)`: `index` is undefined on
this code path (and the method takes a single `coordinates` argument), so
every request — whatever its parameters — answers a nonzero errcode and
leaves the settings state untouched.  The final conjunct shows the
`KrakenSDRControl.set_coordinates` method itself would have committed the
fields in one write, so the handler's call is the slip. -/
theorem set_coordinates_handler_never_commits :
    (∀ (param_data : List (String × PVal)) (st : KState),
        (handle_set_coordinates param_data st).2 = st ∧
        (handle_set_coordinates param_data st).1.errcode ≠ 0) ∧
    KrakenSDRControl.set_coordinates ⟨[], none, 0⟩
        [("latitude", .str "1.0"), ("longitude", .str "2.0")] =
      .ok ⟨[("latitude", .num (.fin 1)), ("longitude", .num (.fin 2))], none, 1⟩ := by
  constructor
  · intro param_data st
    unfold handle_set_coordinates
    by_cases h : ((plookup param_data "latitude").isNone ||
        (plookup param_data "longitude").isNone) = true
    · rw [if_pos h]
      exact ⟨rfl, by norm_num [errResp]⟩
    · rw [if_neg h]
      exact ⟨rfl, by norm_num [errResp]⟩
  · decide

/-- C3: the claim says `set_output_vfo` commits the parsed index under
`output_vfo` with errcode 0.  The handler's call
`krakensdr.set_output_vfo(index)` supplies one argument to a method with
two required positional parameters, so it raises `TypeError` and every
request answers a nonzero errcode without touching the settings state.
The final conjunct shows the method itself does write `output_vfo` when
called with both arguments. -/
theorem set_output_vfo_handler_never_commits :
    (∀ (param_data : List (String × PVal)) (st : KState),
        (handle_set_output_vfo param_data st).2 = st ∧
        (handle_set_output_vfo param_data st).1.errcode ≠ 0) ∧
    KrakenSDRControl.set_output_vfo ⟨[], none, 0⟩ 2 (.int 2) true =
      ⟨[("output_vfo", .int 2)], none, 1⟩ := by
  constructor
  · intro param_data st
    unfold handle_set_output_vfo
    split
    · exact ⟨rfl, by norm_num [errResp]⟩
    · split <;> exact ⟨rfl, by norm_num [errResp]⟩
  · decide

/-- C4: the claim says `set_vfo_bandwidth` accepts iff `0 < vfo_bw ≤ 2.4e6`
and then commits the parsed bandwidth under `vfo_bw_<index>` with
errcode 0.  After validation the handler calls
`krakensdr.set_vfo_bandwidth(index, freq)` where `freq` is never assigned
on this code path, so `NameError` is raised and every request answers a
nonzero errcode without touching the settings state; moreover the guard
`bw == 0 or bw > 2.4e6` does not reject negative bandwidths (last
conjunct), so even the claim's acceptance condition is not the one coded. -/
theorem set_vfo_bandwidth_handler_never_commits :
    (∀ (param_data : List (String × PVal)) (st : KState),
        (handle_set_vfo_bandwidth param_data st).2 = st ∧
        (handle_set_vfo_bandwidth param_data st).1.errcode ≠ 0) ∧
    vfo_bw_out_of_range (.fin (-5)) = false := by
  constructor
  · intro param_data st
    unfold handle_set_vfo_bandwidth
    split
    · exact ⟨rfl, by norm_num [errResp]⟩
    · exact ⟨rfl, by norm_num [errResp]⟩
    · split
      · exact ⟨rfl, by norm_num [errResp]⟩
      · split
        · exact ⟨rfl, by norm_num [errResp]⟩
        · split <;> exact ⟨rfl, by norm_num [errResp]⟩
  · decide

theorem processRow_skipped_of_parseBase_valueError (row : List String)
    (h377 : 377 ≤ row.length) (hpb : parseBase row = .valueError) :
    processRow row = .skipped := by
  unfold processRow
  rw [if_neg (not_lt.mpr h377), hpb]

theorem processRow_raised_of_parseBase_uncaught (row : List String) (m : String)
    (h377 : 377 ≤ row.length) (hpb : parseBase row = .uncaught m) :
    processRow row = .raised m := by
  unfold processRow
  rw [if_neg (not_lt.mpr h377), hpb]

theorem processRow_raised_of_doaPowers_none (row : List String) (bv : BaseVals)
    (h377 : 377 ≤ row.length) (hpb : parseBase row = .ok bv)
    (hdoa : doaPowers row = none) :
    processRow row = .raised "could not convert string to float" := by
  unfold processRow
  rw [if_neg (not_lt.mpr h377), hpb, hdoa]

/-- C5 counterexample: the claim says `fetch_and_process_csv` never raises
to its caller and that a row with a bad numeric field — including the 360
DOA power values — is skipped while the rest of the feed is processed.
On a feed whose first row has a malformed DOA power value followed by a
perfectly good row, the function instead propagates a `ValueError` (the DOA
comprehension sits outside the row's `try` block) and the good row is lost. -/
theorem fetch_csv_bad_doa_power_raises :
    fetch_and_process_csv (.body [rowBadDoa, sampleRow]) =
      .error "could not convert string to float" := by
  set_option maxRecDepth 100000 in decide

/-- C5 amended: a row whose guarded `try`-block conversions raise a caught
`ValueError` — a malformed numeric field, or a parseable epoch whose UTC
year falls outside 1..9999 (within the C time range) — is skipped and the
remaining rows are still processed; but an exception the code does not
catch aborts the whole fetch and propagates to the caller: an epoch too
large for `float()` or beyond the C time range (`OverflowError`/`OSError`
inside the `try` block), or a DOA power value that fails to coerce (the
comprehension sits outside the `try` block); network/HTTP errors and CSV
decode errors are caught and yield the empty sequence. -/
theorem fetch_csv_row_failure_semantics :
    (∀ (row : List String) (rest : List (List String)),
        377 ≤ row.length → parseBase row = .valueError →
        fetch_and_process_csv (.body (row :: rest)) =
          fetch_and_process_csv (.body rest)) ∧
    (∀ (row : List String) (rest : List (List String)) (m : String),
        377 ≤ row.length → parseBase row = .uncaught m →
        fetch_and_process_csv (.body (row :: rest)) = .error m) ∧
    (∀ (row : List String) (rest : List (List String)) (bv : BaseVals),
        377 ≤ row.length → parseBase row = .ok bv → doaPowers row = none →
        fetch_and_process_csv (.body (row :: rest)) =
          .error "could not convert string to float") ∧
    (∀ msg : String,
        fetch_and_process_csv (.requestError msg) = .ok [] ∧
        fetch_and_process_csv (.csvError msg) = .ok []) := by
  refine ⟨?_, ?_, ?_, fun msg => ⟨rfl, rfl⟩⟩
  · intro row rest h377 hpb
    have hskip := processRow_skipped_of_parseBase_valueError row h377 hpb
    show processRows (row :: rest) [] = processRows rest []
    simp only [processRows, hskip]
  · intro row rest m h377 hpb
    have hr := processRow_raised_of_parseBase_uncaught row m h377 hpb
    show processRows (row :: rest) [] = .error m
    simp only [processRows, hr]
  · intro row rest bv h377 hpb hdoa
    have hr := processRow_raised_of_doaPowers_none row bv h377 hpb hdoa
    show processRows (row :: rest) [] = .error "could not convert string to float"
    simp only [processRows, hr]

set_option maxRecDepth 100000 in
theorem fetch_csv_row_failure_semantics_witness :
    fetch_and_process_csv (.body [rowBadEpoch, sampleRow]) =
      fetch_and_process_csv (.body [sampleRow]) ∧
    fetch_and_process_csv (.body [rowEpochYear10000, sampleRow]) =
      fetch_and_process_csv (.body [sampleRow]) ∧
    fetch_and_process_csv (.body [rowEpochOverflow, sampleRow]) =
      .error "OverflowError: int too large to convert to float" ∧
    fetch_and_process_csv (.body [rowBadDoa]) =
      .error "could not convert string to float" ∧
    fetch_and_process_csv (.requestError "timeout") = .ok [] :=
  ⟨fetch_csv_row_failure_semantics.1 rowBadEpoch [sampleRow] (by decide) (by decide),
   fetch_csv_row_failure_semantics.1 rowEpochYear10000 [sampleRow]
     (by decide) (by decide),
   fetch_csv_row_failure_semantics.2.1 rowEpochOverflow [sampleRow]
     "OverflowError: int too large to convert to float" (by decide) (by decide),
   fetch_csv_row_failure_semantics.2.2.1 rowBadDoa [] sampleBase
     (by decide) (by decide) (by decide),
   (fetch_csv_row_failure_semantics.2.2.2 "timeout").1⟩

/-- C8 counterexample: the claim says a CSV row missing the Compass Heading
position still yields a record with a NaN compass heading.  A row missing
that position has 376 < 377 columns, so the length gate drops it: the
parse yields no record at all. -/
theorem csv_row_missing_compass_is_dropped :
    fetch_and_process_csv (.body [rowMissingCompass]) = .ok [] ∧
    rowMissingCompass.length = 376 := by
  exact ⟨by set_option maxRecDepth 100000 in decide,
         by set_option maxRecDepth 100000 in decide⟩

/-- C8 amended: any row shorter than 377 columns (in particular one missing
the Compass Heading position) is dropped with a diagnostic; every row that
reaches parsing carries all 13 base positions, so the `"NaN"` default of
the compass-heading lookup is unreachable (the lookup always returns the
cell at index 11). -/
theorem csv_short_row_dropped_and_compass_present :
    (∀ row : List String, row.length < 377 → processRow row = .skipped) ∧
    (∀ row : List String, 13 ≤ row.length →
        dictGetD (base_data row) "Compass Heading" "NaN" = row.getD 11 "") := by
  constructor
  · intro row h
    unfold processRow
    rw [if_pos h]
  · intro row _
    rfl

set_option maxRecDepth 100000 in
theorem csv_short_row_dropped_and_compass_present_witness :
    processRow rowMissingCompass = .skipped ∧
    dictGetD (base_data sampleRow) "Compass Heading" "NaN" = "180.0" :=
  ⟨csv_short_row_dropped_and_compass_present.1 rowMissingCompass (by decide),
   by
    rw [csv_short_row_dropped_and_compass_present.2 sampleRow (by decide)]
    decide⟩

/-- C9 counterexample: the claim says a single malformed `--allowedips`
entry makes startup fail (exit code 3 or otherwise fatal) and that the
agent does not serve with an empty allow-all list.  `buildAllowedIPs`
merely returns `False` for this case (with `allowedIPs` left empty), and
`__main__` discards that return value, so the process proceeds to serve
with the empty, allow-all list. -/
theorem allowlist_single_malformed_entry_still_serves :
    buildAllowedIPs "notanip" = .failed [] ∧
    mainStartup "notanip" = .serve [] := by
  exact ⟨by decide, by decide⟩

/-- C9 amended: a malformed single-entry allow-list string makes
`buildAllowedIPs` return False with an empty list, and since `__main__`
ignores the returned boolean, the agent serves with the empty (allow-all)
list; only a malformed entry inside a comma-separated multi-entry list
aborts the process with exit code 3. -/
theorem allowlist_failure_modes :
    (∀ s : String, 0 < s.length → containsChar s.data ',' = false →
        ipSearch (removeChar s.data ' ') = none →
        buildAllowedIPs s = .failed [] ∧ mainStartup s = .serve []) ∧
    (buildAllowedIPs "10.0.0.5,notanip" = .exited 3 ∧
     mainStartup "10.0.0.5,notanip" = .exit 3) := by
  constructor
  · intro s h0 hc hsearch
    have hb : buildAllowedIPs s = .failed [] := by
      simp [buildAllowedIPs, h0, hc, hsearch]
    exact ⟨hb, by unfold mainStartup; rw [hb]⟩
  · exact ⟨by decide, by decide⟩

theorem allowlist_failure_modes_witness :
    buildAllowedIPs "badip" = .failed [] ∧ mainStartup "badip" = .serve [] :=
  allowlist_failure_modes.1 "badip" (by decide) (by decide) (by decide)

theorem set_gain_commit_after_staged_freq (st : KState) (q : ℚ) (g : PyFloat)
    (hst : st.staged = none)
    (hmem : KrakenSDRControl.valid_gains.any (fun x => PyFloat.beq x g) = true) :
    KrakenSDRControl.set_gain (KrakenSDRControl.set_frequency st (.fin q) false) g true =
      .ok ⟨dictSet (dictSet st.file "center_freq" (.num (.fin q))) "uniform_gain" (.num g),
           none, st.writes + 1⟩ := by
  simp [KrakenSDRControl.set_gain, KrakenSDRControl.set_frequency,
        KrakenSDRControl.update_value, hst, hmem]

/-- C6: a `set_frequency` request carrying a valid `freq` (24.0-1766.0 MHz)
and a `gain` in the fixed gain table stages the frequency (no write) and
the gain setter commits both in one write: starting from an unstaged state,
the handler answers errcode 0, performs exactly one `save_config`, and the
written document holds both `center_freq` and `uniform_gain`. -/
theorem set_frequency_with_gain_batches_single_write
    (fs gs : String) (q : ℚ) (g : PyFloat) (st : KState)
    (hst : st.staged = none)
    (hf : pyFloat? fs = some (.fin q)) (h24 : 24 ≤ q) (h1766 : q ≤ 1766)
    (hg : pyFloat? gs = some g)
    (hmem : KrakenSDRControl.valid_gains.any (fun x => PyFloat.beq x g) = true) :
    handle_set_frequency [("freq", .str fs), ("gain", .str gs)] st =
      (okResp,
       ⟨dictSet (dictSet st.file "center_freq" (.num (.fin q))) "uniform_gain" (.num g),
        none, st.writes + 1⟩) ∧
    dictGet (handle_set_frequency [("freq", .str fs), ("gain", .str gs)] st).2.file
        "center_freq" = some (.num (.fin q)) ∧
    dictGet (handle_set_frequency [("freq", .str fs), ("gain", .str gs)] st).2.file
        "uniform_gain" = some (.num g) := by
  have hguard : (PyFloat.lt (.fin q) (.fin 24) || PyFloat.lt (.fin 1766) (.fin q)) = false := by
    simp only [PyFloat.lt, Bool.or_eq_false_iff, decide_eq_false_iff_not, not_lt]
    exact ⟨h24, h1766⟩
  have hcall := set_gain_commit_after_staged_freq st q g hst hmem
  have hres : handle_set_frequency [("freq", .str fs), ("gain", .str gs)] st =
      (okResp,
       ⟨dictSet (dictSet st.file "center_freq" (.num (.fin q))) "uniform_gain" (.num g),
        none, st.writes + 1⟩) := by
    simp [handle_set_frequency, plookup, pyFloatOfPVal, hf, hg, hguard, hcall]
  refine ⟨hres, ?_, ?_⟩
  · rw [hres]
    rw [dictGet_dictSet_ne _ _ _ _ (by decide), dictGet_dictSet_same]
  · rw [hres]
    rw [dictGet_dictSet_same]

theorem set_frequency_with_gain_batches_single_write_witness :
    handle_set_frequency [("freq", .str "100"), ("gain", .str "20.7")] ⟨[], none, 0⟩ =
      (okResp,
       ⟨[("center_freq", .num (.fin 100)), ("uniform_gain", .num (.fin (mkRat 207 10)))],
        none, 1⟩) :=
  (set_frequency_with_gain_batches_single_write "100" "20.7" 100 (.fin (mkRat 207 10))
      ⟨[], none, 0⟩ rfl (by decide) (by decide) (by decide) (by decide) (by decide)).1

/-- C7 counterexample: the claim says the request is accepted iff
`24.0 ≤ f ≤ 1766.0` for every supplied frequency value.  `float("nan")`
yields NaN, for which both guards `f < 24.0` and `f > 1766.0` are false, so
the handler accepts it (errcode 0) and writes `center_freq = NaN` — even
though `24.0 ≤ NaN` is false under IEEE comparison. -/
theorem set_frequency_nan_accepted_and_written :
    (handle_set_frequency [("freq", PVal.str "nan")] ⟨[], none, 0⟩).1.errcode = 0 ∧
    (handle_set_frequency [("freq", PVal.str "nan")] ⟨[], none, 0⟩).2.file =
      [("center_freq", JVal.num .nan)] ∧
    PyFloat.le (.fin 24) .nan = false := by decide

/-- C7 amended: for every `freq` value that `float()` parses, the request
is accepted iff neither `f < 24.0` nor `f > 1766.0` holds under IEEE
comparison semantics (so a NaN frequency is accepted and written); for
finite `f` this coincides with `24.0 ≤ f ≤ 1766.0`; and whenever the
response has a nonzero errcode, the settings state is unchanged. -/
theorem set_frequency_accept_condition (fs : String) (f : PyFloat) (st : KState)
    (hf : pyFloat? fs = some f) :
    ((handle_set_frequency [("freq", .str fs)] st).1.errcode = 0 ↔
        (PyFloat.lt f (.fin 24) = false ∧ PyFloat.lt (.fin 1766) f = false)) ∧
    (∀ q : ℚ, f = .fin q →
        ((handle_set_frequency [("freq", .str fs)] st).1.errcode = 0 ↔
          24 ≤ q ∧ q ≤ 1766)) ∧
    ((handle_set_frequency [("freq", .str fs)] st).1.errcode ≠ 0 →
        (handle_set_frequency [("freq", .str fs)] st).2 = st) := by
  by_cases hguard : (PyFloat.lt f (.fin 24) || PyFloat.lt (.fin 1766) f) = true
  · have hres : handle_set_frequency [("freq", .str fs)] st =
        (errResp 1 "Frequency range error.  Value should be in MHz and range from 24.0 - 1766.0",
         st) := by
      simp [handle_set_frequency, plookup, pyFloatOfPVal, hf, hguard]
    rw [hres]
    refine ⟨?_, ?_, fun _ => rfl⟩
    · constructor
      · intro h
        exact absurd h (by norm_num [errResp])
      · rintro ⟨ha, hb⟩
        rw [ha, hb] at hguard
        simp at hguard
    · intro q hq
      subst hq
      constructor
      · intro h
        exact absurd h (by norm_num [errResp])
      · rintro ⟨h1, h2⟩
        simp only [PyFloat.lt, Bool.or_eq_true, decide_eq_true_eq] at hguard
        rcases hguard with h | h
        · exact absurd h (not_lt.mpr h1)
        · exact absurd h (not_lt.mpr h2)
  · have hg2 : (PyFloat.lt f (.fin 24) || PyFloat.lt (.fin 1766) f) = false := by
      revert hguard
      cases PyFloat.lt f (.fin 24) || PyFloat.lt (.fin 1766) f <;> simp
    have hres : handle_set_frequency [("freq", .str fs)] st =
        (okResp, KrakenSDRControl.set_frequency st f true) := by
      simp [handle_set_frequency, plookup, pyFloatOfPVal, hf, hg2]
    obtain ⟨hfa, hfb⟩ := Bool.or_eq_false_iff.mp hg2
    rw [hres]
    refine ⟨?_, ?_, ?_⟩
    · simp [okResp, hfa, hfb]
    · intro q hq
      subst hq
      simp only [PyFloat.lt, decide_eq_false_iff_not, not_lt] at hfa hfb
      simp [okResp, hfa, hfb]
    · intro h
      exact absurd rfl h

theorem set_frequency_accept_condition_witness :
    (handle_set_frequency [("freq", PVal.str "100")] ⟨[], none, 0⟩).1.errcode = 0 :=
  (((set_frequency_accept_condition "100" (.fin 100) ⟨[], none, 0⟩ (by decide)).2.1)
      100 rfl).mpr (by norm_num)

/-- C10: a `set_frequency` request with a valid `freq` and a `gain` that is
not in the fixed gain table answers errcode 3 without writing the settings
file, but the staged copy created by `set_frequency(freq, save_file=False)`
survives in the process-wide single-slot buffer, holding the rejected
request's frequency; any later `update_value` that commits then writes that
leftover frequency into the settings document. -/
theorem failed_gain_leaves_staged_frequency
    (fs gs : String) (q : ℚ) (g : PyFloat) (st : KState)
    (hst : st.staged = none)
    (hf : pyFloat? fs = some (.fin q)) (h24 : 24 ≤ q) (h1766 : q ≤ 1766)
    (hg : pyFloat? gs = some g)
    (hmem : KrakenSDRControl.valid_gains.any (fun x => PyFloat.beq x g) = false) :
    (handle_set_frequency [("freq", .str fs), ("gain", .str gs)] st).1.errcode = 3 ∧
    (handle_set_frequency [("freq", .str fs), ("gain", .str gs)] st).2 =
      ⟨st.file, some (dictSet st.file "center_freq" (.num (.fin q))), st.writes⟩ ∧
    (∀ (key : String) (v : JVal), key ≠ "center_freq" →
      dictGet (KrakenSDRControl.update_value
          (handle_set_frequency [("freq", .str fs), ("gain", .str gs)] st).2
          key v true).file "center_freq" = some (.num (.fin q)) ∧
      (KrakenSDRControl.update_value
          (handle_set_frequency [("freq", .str fs), ("gain", .str gs)] st).2
          key v true).writes = st.writes + 1) := by
  have hguard : (PyFloat.lt (.fin q) (.fin 24) || PyFloat.lt (.fin 1766) (.fin q)) = false := by
    simp only [PyFloat.lt, Bool.or_eq_false_iff, decide_eq_false_iff_not, not_lt]
    exact ⟨h24, h1766⟩
  have hfail : KrakenSDRControl.set_gain
      ⟨st.file, some (dictSet st.file "center_freq" (.num (.fin q))), st.writes⟩ g true =
      .error "ERROR: Invalid gain value.  Gain must be one of the valid gains" := by
    simp [KrakenSDRControl.set_gain, hmem]
  have hstage : KrakenSDRControl.set_frequency st (.fin q) false =
      ⟨st.file, some (dictSet st.file "center_freq" (.num (.fin q))), st.writes⟩ := by
    simp [KrakenSDRControl.set_frequency, KrakenSDRControl.update_value, hst]
  have hres : handle_set_frequency [("freq", .str fs), ("gain", .str gs)] st =
      (errResp 3 ("ERROR setting value: " ++
          "ERROR: Invalid gain value.  Gain must be one of the valid gains"),
       ⟨st.file, some (dictSet st.file "center_freq" (.num (.fin q))), st.writes⟩) := by
    simp [handle_set_frequency, plookup, pyFloatOfPVal, hf, hg, hguard, hfail, hstage]
  rw [hres]
  refine ⟨rfl, rfl, ?_⟩
  intro key v hkey
  constructor
  · show dictGet (dictSet (dictSet st.file "center_freq" (.num (.fin q))) key v)
        "center_freq" = some (.num (.fin q))
    rw [dictGet_dictSet_ne _ _ _ _ (Ne.symm hkey), dictGet_dictSet_same]
  · rfl

theorem failed_gain_leaves_staged_frequency_witness :
    dictGet (KrakenSDRControl.update_value
        (handle_set_frequency [("freq", PVal.str "100"), ("gain", PVal.str "5.5")]
          ⟨[], none, 0⟩).2
        "uniform_gain" (JVal.num (.fin (mkRat 207 10))) true).file "center_freq" =
      some (.num (.fin 100)) :=
  ((failed_gain_leaves_staged_frequency "100" "5.5" 100 (.fin (mkRat 11 2)) ⟨[], none, 0⟩
      rfl (by decide) (by decide) (by decide) (by decide) (by decide)).2.2
      "uniform_gain" (JVal.num (.fin (mkRat 207 10))) (by decide)).1
